import Mathlib

/-!
Verification of the networking core in `src/godot/metaverse_networking.c`.

Machine integers are modelled as `Nat` with explicit reduction modulo
`2 ^ w` at the points where the C code's fixed-width arithmetic can wrap.
C `float` quantities (the packet-loss EWMA, interpolation factors,
positions) are modelled as exact rationals; `float` division by zero,
which cannot arise on the inputs used in the theorems below, maps to
rational division by zero (which yields 0).
-/

namespace Metaverse

/-- `#define MAX_PACKET_SIZE 1400` (MTU safe). -/
def MAX_PACKET_SIZE : Nat := 1400

/-- `#define MAX_ENTITIES_PER_PACKET 64`. -/
def MAX_ENTITIES_PER_PACKET : Nat := 64

/-- `#define METAVERSE_PROTOCOL_VERSION 1`. -/
def METAVERSE_PROTOCOL_VERSION : Nat := 1

/-- Unsigned 16-bit subtraction `a - b` on values already reduced mod `2 ^ 16`,
as performed on `uint16_t` operands in C. -/
def sub16 (a b : Nat) : Nat := (a + 65536 - b % 65536) % 65536

/-- Unsigned 32-bit subtraction `a - b`, as performed on `uint32_t` operands. -/
def sub32 (a b : Nat) : Nat := (a + 4294967296 - b % 4294967296) % 4294967296

/-- `Vector4` from `godot_metaverse_core.c`: `float x, y, z; float w;`
(`w` is used for quaternions). Components are modelled as exact rationals. -/
structure Vector4 where
  x : ℚ
  y : ℚ
  z : ℚ
  w : ℚ
  deriving DecidableEq, Repr

/-- Squared Euclidean distance over the `x, y, z` components.
The source's `vector_distance` (lines 767-772) returns
`sqrtf(dx*dx + dy*dy + dz*dz)`; every use of it in the source compares the
result against a nonnegative constant `c`, and since the square root is
monotone and both sides are nonnegative, `vector_distance a b > c` holds
exactly when `vector_distance_sq a b > c ^ 2`.  The embedding therefore
works with the squared distance, which stays inside ℚ. -/
def vector_distance_sq (a b : Vector4) : ℚ :=
  (a.x - b.x) * (a.x - b.x) + (a.y - b.y) * (a.y - b.y) + (a.z - b.z) * (a.z - b.z)

/-- `NetworkEntity` (lines 44-54). Timestamps are `uint32_t` seconds. -/
structure NetworkEntity where
  entity_id : Nat
  owner_id : Nat
  entity_type : Nat
  flags : Nat
  position : Vector4
  rotation : Vector4
  velocity : Vector4
  last_update : Nat
  interpolation_time : Nat
  deriving DecidableEq, Repr

/-- `NetworkPlayer` (lines 57-75), restricted to the fields the verified
operations read or write. -/
structure NetworkPlayer where
  player_id : Nat
  connected : Bool
  authenticated : Bool
  last_packet_time : Nat
  deriving DecidableEq, Repr

/-- The portion of `NetworkManager` (lines 101-149) touched by the verified
operations: role flags, the player and entity tables, the sequence counters
and the statistics block.  The socket, thread handles and mutexes carry no
protocol state and are omitted; the tables are lists in array order. -/
structure NetworkManager where
  is_server : Bool
  is_connected : Bool
  local_player_id : Nat
  players : List NetworkPlayer
  entities : List NetworkEntity
  next_send_sequence : Nat
  last_received_sequence : Nat
  packets_sent : Nat
  packets_received : Nat
  packets_lost : Nat
  bytes_sent : Nat
  bytes_received : Nat
  packet_loss_rate : ℚ
  deriving DecidableEq, Repr

/-- The manager state right after `network_manager_create` (lines 195-285):
`memset` zeroes the struct, then counters, statistics and sequence numbers
are initialised to zero and the tables are empty. -/
def initial_manager (is_server : Bool) : NetworkManager :=
  { is_server := is_server
    is_connected := false
    local_player_id := 0
    players := []
    entities := []
    next_send_sequence := 0
    last_received_sequence := 0
    packets_sent := 0
    packets_received := 0
    packets_lost := 0
    bytes_sent := 0
    bytes_received := 0
    packet_loss_rate := 0 }

/-- The packet types having a `case` in the dispatch `switch` of
`network_process_packet` (lines 389-429): CONNECT 0, DISCONNECT 1,
ENTITY_UPDATE 2, CHAT_MESSAGE 5, VOICE_DATA 6, SNAPSHOT 7, INPUT 8, RPC 9,
PING 10, PONG 11.  (ENTITY_CREATE 3 and ENTITY_DESTROY 4 have no case.) -/
def handled_packet_types : List Nat := [0, 1, 2, 5, 6, 7, 8, 9, 10, 11]

/-- A datagram as a byte buffer; each entry is one byte. -/
def byteAt (data : List Nat) (i : Nat) : Nat := (data.getD i 0) % 256

/-- A well-formed header for the embedding's test packets:
`protocolVersion:u8, packetType:u8, sequence:u16` (little-endian), as
written by the send paths at lines 439-443. -/
def mk_packet (ver ty seq : Nat) : List Nat :=
  [ver % 256, ty % 256, seq % 256, (seq / 256) % 256]

/-- `network_process_packet` (lines 358-430).  Returns the updated manager
together with the packet type dispatched to a handler (`none` when the
packet is dropped before the `switch`, i.e. too short or wrong protocol
version, or when no `case` matches).  The handler bodies themselves are
outside the verified surface; the value returned records which handler the
`switch` invokes.  Line-by-line:
* `if (length < 4) return;`
* `protocol_version = data[0]; packet_type = data[1];
  sequence = *(uint16_t*)(data + 2);` (little-endian load),
* protocol-version mismatch: print and return, state untouched;
* `expected_sequence = last_received_sequence + 1` (`uint16_t`, wraps);
* on `sequence != expected_sequence`: `lost_packets = sequence -
  expected_sequence` (unsigned 16-bit), `packets_lost += lost_packets`,
  `packet_loss_rate = 0.9 * rate + 0.1 * (lost_packets / (float)sequence)`;
* `last_received_sequence = sequence;` then the `switch` on the type. -/
def network_process_packet (st : NetworkManager) (data : List Nat) :
    NetworkManager × Option Nat :=
  if data.length < 4 then (st, none)
  else
    let protocol_version := byteAt data 0
    let packet_type := byteAt data 1
    let seq := byteAt data 2 + 256 * byteAt data 3
    if protocol_version ≠ METAVERSE_PROTOCOL_VERSION then (st, none)
    else
      let expected_sequence := (st.last_received_sequence + 1) % 65536
      let st1 :=
        if seq ≠ expected_sequence then
          let lost_packets := sub16 seq expected_sequence
          { st with
            packets_lost := st.packets_lost + lost_packets
            packet_loss_rate :=
              9 / 10 * st.packet_loss_rate + 1 / 10 * ((lost_packets : ℚ) / (seq : ℚ)) }
        else st
      let st2 := { st1 with last_received_sequence := seq }
      (st2, if packet_type ∈ handled_packet_types then some packet_type else none)

/-- One received datagram inside `network_receive_thread` (lines 295-311):
when `recvfrom` returns a packet, `packets_received` and `bytes_received`
are incremented before `network_process_packet` runs. -/
def network_receive_step (st : NetworkManager) (data : List Nat) :
    NetworkManager × Option Nat :=
  let st1 := { st with
    packets_received := st.packets_received + 1
    bytes_received := st.bytes_received + data.length }
  network_process_packet st1 data

/-- Folding `network_process_packet` over a list of datagrams, keeping the
manager state (the dispatch results are dropped). -/
def process_packets (st : NetworkManager) (ps : List (List Nat)) : NetworkManager :=
  ps.foldl (fun s p => (network_process_packet s p).1) st

/-! ## Reconciliation (client-side prediction), lines 633-668 and 774-782 -/

/-- `find_server_entity` (lines 774-782): a linear scan of
`manager->entities` returning the first entry with the given entity id
(the source comment notes a real implementation would keep a separate
server entity buffer; here the same table is searched). -/
def find_server_entity (entities : List NetworkEntity) (entity_id : Nat) :
    Option NetworkEntity :=
  entities.find? (fun e => e.entity_id = entity_id)

/-- The squared positional reconciliation epsilon: the source compares
`vector_distance(position, server position) > 0.1f` (line 652). -/
def RECONCILE_EPS_POS_SQ : ℚ := (1 / 10) ^ 2

/-- The squared rotational reconciliation epsilon: the source compares
`vector_distance(rotation, server rotation) > 0.01f` (line 653). -/
def RECONCILE_EPS_ROT_SQ : ℚ := (1 / 100) ^ 2

/-- Divergence test of `network_reconcile_state` (lines 651-653), with the
distances squared as explained at `vector_distance_sq`. -/
def pose_diverged (e s : NetworkEntity) : Prop :=
  vector_distance_sq e.position s.position > RECONCILE_EPS_POS_SQ ∨
  vector_distance_sq e.rotation s.rotation > RECONCILE_EPS_ROT_SQ

instance (e s : NetworkEntity) : Decidable (pose_diverged e s) := by
  unfold pose_diverged; infer_instance

/-- Loop body of `network_reconcile_state` (lines 642-664) for one entity,
given the entity table visible at that iteration.  Returns the (possibly
corrected) entity together with the number of correction events emitted
for it (the `printf("State mismatch ...")` at line 656):
* entities not owned by the local player are skipped;
* otherwise the latest server state is looked up with `find_server_entity`;
* if it exists and position or rotation diverges beyond the epsilon, one
  correction event is emitted and position and rotation are snapped to the
  server values (lines 659-660). -/
def reconcile_entity (local_player_id : Nat) (table : List NetworkEntity)
    (e : NetworkEntity) : NetworkEntity × Nat :=
  if e.owner_id ≠ local_player_id then (e, 0)
  else
    match find_server_entity table e.entity_id with
    | none => (e, 0)
    | some s =>
      if pose_diverged e s then
        ({ e with position := s.position, rotation := s.rotation }, 1)
      else (e, 0)

/-- The `for` loop of `network_reconcile_state`: the table is updated in
place, so the lookup at iteration `i` sees the already-corrected entries
before index `i` (`done`) and the untouched entries from index `i` on. -/
def reconcile_loop (local_player_id : Nat) :
    List NetworkEntity → List NetworkEntity → Nat → List NetworkEntity × Nat
  | done, [], events => (done, events)
  | done, e :: rest, events =>
    let r := reconcile_entity local_player_id (done ++ e :: rest) e
    reconcile_loop local_player_id (done ++ [r.1]) rest (events + r.2)

/-- `network_reconcile_state` (lines 633-668): a no-op on the server;
on the client, runs the reconciliation loop over the entity table.
The second component counts the correction events emitted. -/
def network_reconcile_state (st : NetworkManager) : NetworkManager × Nat :=
  if st.is_server then (st, 0)
  else
    let r := reconcile_loop st.local_player_id [] st.entities 0
    ({ st with entities := r.1 }, r.2)

/-! ## Interpolation (client side), lines 599-631 -/

/-- The clamped blend factor computed at lines 621-623 for a fresh
non-owned entity:
`alpha = (float)(now - last_update) / interpolation_time` clamped to
`[0, 1]` by `fminf(fmaxf(alpha, 0.0f), 1.0f)`. -/
def interpolation_alpha (now : Nat) (e : NetworkEntity) : ℚ :=
  min (max ((sub32 now e.last_update : ℚ) / (e.interpolation_time : ℚ)) 0) 1

/-- Loop body of `network_interpolate_entities` (lines 607-628) for one
entity.  Every branch leaves the entity unchanged: owned entities are
skipped, stale entities (`now - last_update > 1000`, unsigned 32-bit) are
skipped, and for a fresh entity with a positive interpolation window the
source computes `interpolation_alpha` but never writes back a position
(the body under the clamp is only comments: "Would need previous and next
states"). -/
def interpolate_entity (local_player_id now : Nat) (e : NetworkEntity) :
    NetworkEntity :=
  if e.owner_id = local_player_id then e
  else if sub32 now e.last_update > 1000 then e
  else if e.interpolation_time > 0 then e
  else e

/-- `network_interpolate_entities` (lines 599-631): a no-op on the server;
on the client, maps the loop body over the entity table. -/
def network_interpolate_entities (st : NetworkManager) (now : Nat) :
    NetworkManager :=
  if st.is_server then st
  else { st with entities := st.entities.map (interpolate_entity st.local_player_id now) }

/-- Follows the spec's words (refinement target for the interpolation
claim): rendered position at time `t` between two received states
`(p0, t0)` and `(p1, t1)` is `p0 + (p1 - p0) * clamp((t - t0)/(t1 - t0), 0, 1)`,
taken componentwise on `x, y, z` (w carried along unchanged by the blend
of equal `w` components). -/
def interp_spec_position (p0 : Vector4) (t0 : ℚ) (p1 : Vector4) (t1 t : ℚ) :
    Vector4 :=
  let alpha := min (max ((t - t0) / (t1 - t0)) 0) 1
  { x := p0.x + (p1.x - p0.x) * alpha
    y := p0.y + (p1.y - p0.y) * alpha
    z := p0.z + (p1.z - p0.z) * alpha
    w := p0.w + (p1.w - p0.w) * alpha }

/-! ## Snapshot building (server side), lines 483-506 -/

/-- Entity-selection loop of `network_send_snapshot` (lines 496-506):
scan the table in array order; stop as soon as the snapshot already holds
`MAX_ENTITIES_PER_PACKET` entities; include an entity only when it changed
within the last 2 seconds (`now - last_update <= 2`, unsigned 32-bit).
`acc` is the snapshot's entity array filled so far. -/
def snapshot_fill (now : Nat) :
    List NetworkEntity → List NetworkEntity → List NetworkEntity
  | acc, [] => acc
  | acc, e :: rest =>
    if acc.length ≥ MAX_ENTITIES_PER_PACKET then acc
    else if sub32 now e.last_update ≤ 2 then snapshot_fill now (acc ++ [e]) rest
    else snapshot_fill now acc rest

/-- The entity list of the snapshot built by `network_send_snapshot` from
the manager's entity table at time `now` (`snapshot.entity_count` starts
at 0). -/
def snapshot_entity_list (now : Nat) (entities : List NetworkEntity) :
    List NetworkEntity :=
  snapshot_fill now [] entities

/-! ## Voice packet bounds, lines 164-173 and 671-701 -/

/-- Capacity of `VoicePacket.audio_data`: `uint8_t audio_data[1200]`
(line 172, "MTU safe"). -/
def VOICE_AUDIO_CAPACITY : Nat := 1200

/-- `sizeof(VoicePacket)` under the standard C layout of lines 164-173:
`player_id:u32` at 0, `sequence:u16` at 4, `timestamp:u32` at 8 (2 bytes
padding before it), `codec:u8` at 12, `channels:u8` at 13,
`sample_rate:u16` at 14, `data_size:u16` at 16, `audio_data[1200]` at 18,
raw size 1218, padded to the 4-byte struct alignment: 1220. -/
def sizeof_VoicePacket : Nat := 1220

/-- Number of bytes `network_send_voice` copies into the wire buffer for
the voice body: `sizeof(VoicePacket) - sizeof(voice.audio_data) + data_size`
(line 698). -/
def voice_body_size (data_size : Nat) : Nat :=
  sizeof_VoicePacket - VOICE_AUDIO_CAPACITY + data_size

/-- Total serialized voice packet size `ptr - packet` at line 701: the
4-byte header written at lines 689-693 plus the voice body. -/
def voice_serialized_size (data_size : Nat) : Nat :=
  4 + voice_body_size data_size

/-! ## Reliable retransmission, lines 88-98 and 317-356

`network_send_thread` (line 341) calls `network_send_reliable_retries`,
which is declared nowhere and defined nowhere in the source tree; only the
`ReliablePacket` record (lines 88-98) and the call site exist.  The retry
step below is therefore modelled from the spec. -/

/-- `ReliablePacket` (lines 88-98): sequence number, acknowledgment
fields, payload length, send time, acknowledged flag and retry count
(the raw payload bytes are irrelevant to the retry policy and omitted). -/
structure ReliablePacket where
  seq16 : Nat
  ack : Nat
  ack_bitfield : Nat
  packet_type : Nat
  data_length : Nat
  send_time : Nat
  acked : Bool
  retry_count : Nat
  deriving DecidableEq, Repr

/-- Spec's "bounded retry count" / "configured maximum reliable-retry
count"; the spec exposes it as configuration without fixing a number. -/
def MAX_RELIABLE_RETRIES : Nat := 10

/-- Spec's "fixed timeout" after which an unacknowledged reliable packet
is retransmitted (seconds, matching `send_time`'s `time_t`). -/
def RELIABLE_RETRY_TIMEOUT : Nat := 1

/-- Outcome of one retry-step visit to a `ReliablePacket`. -/
inductive RetryAction where
  | none_
  | retransmit
  | peer_unreachable
  deriving DecidableEq, Repr

/-- Modelled from the spec: the per-packet body of
`network_send_reliable_retries`, which is called from `network_send_thread`
but missing from the source.  Spec 4.2: "senders retransmit unacknowledged
entries after a fixed timeout, up to a bounded retry count, after which the
channel reports the peer as unreachable"; spec 7: "Reliable packet
exceeding retry budget: the channel surfaces a peer-unreachable
condition".  An acknowledged packet is left alone; an unacknowledged
packet whose retry count has reached the maximum is not retransmitted and
surfaces the peer-unreachable condition; otherwise, once the timeout has
elapsed since `send_time` it is retransmitted with the retry count
incremented. -/
def reliable_retry_step (now : Nat) (p : ReliablePacket) :
    ReliablePacket × RetryAction :=
  if p.acked then (p, RetryAction.none_)
  else if p.retry_count ≥ MAX_RELIABLE_RETRIES then (p, RetryAction.peer_unreachable)
  else if RELIABLE_RETRY_TIMEOUT ≤ now - p.send_time then
    ({ p with send_time := now, retry_count := p.retry_count + 1 },
      RetryAction.retransmit)
  else (p, RetryAction.none_)

/-- Modelled from the spec: the Session Registry's reaction to a
peer-unreachable condition, "equivalent to a keepalive timeout":
the peer is disconnected (spec 7; spec 4.3 `disconnect(peerId)`). -/
def registry_on_unreachable (players : List NetworkPlayer) (pid : Nat) :
    List NetworkPlayer :=
  players.map (fun pl =>
    if pl.player_id = pid then { pl with connected := false } else pl)

/-! ## Signed sequence distance (spec's words) -/

/-- Follows the spec's words (4.2): the sequence "distance computed with
signed 16-bit arithmetic" between a received sequence and the expected
next one — the unsigned 16-bit difference reinterpreted as a signed
16-bit value.  Negative means the packet is older than expected (a
duplicate / regression); positive means a forward gap. -/
def spec_signed_delta (seq expected : Nat) : Int :=
  let d := sub16 seq expected
  if d < 32768 then (d : Int) else (d : Int) - 65536

/-! ## Concrete states used to exercise the theorems -/

/-- A client manager that has last received sequence number 5. -/
def wrap_demo_manager : NetworkManager :=
  { initial_manager false with last_received_sequence := 5 }

/-- A client manager that has last received sequence number 10. -/
def regression_demo_manager : NetworkManager :=
  { initial_manager false with last_received_sequence := 10 }

/-- A client manager sitting just below the 16-bit wrap point. -/
def prewrap_demo_manager : NetworkManager :=
  { initial_manager false with last_received_sequence := 65530 }

/-- A server-owned entity at the origin (the authoritative state). -/
def auth_entity : NetworkEntity :=
  { entity_id := 7
    owner_id := 0
    entity_type := 0
    flags := 0
    position := { x := 0, y := 0, z := 0, w := 0 }
    rotation := { x := 0, y := 0, z := 0, w := 1 }
    velocity := { x := 0, y := 0, z := 0, w := 0 }
    last_update := 0
    interpolation_time := 0 }

/-- A locally predicted copy of entity 7, owned by player 42, one unit
away from the authoritative position. -/
def predicted_entity : NetworkEntity :=
  { auth_entity with owner_id := 42, position := { x := 1, y := 0, z := 0, w := 0 } }

/-- An owned entity that agrees with the table's authoritative state
(it is its own first match in the table). -/
def agreeing_entity : NetworkEntity :=
  { auth_entity with entity_id := 9, owner_id := 42 }

/-- A non-owned entity whose latest received position is `(1,0,0)`,
received at time 0 with a 1000-unit interpolation window. -/
def interp_demo_entity : NetworkEntity :=
  { entity_id := 1
    owner_id := 2
    entity_type := 0
    flags := 0
    position := { x := 1, y := 0, z := 0, w := 0 }
    rotation := { x := 0, y := 0, z := 0, w := 1 }
    velocity := { x := 0, y := 0, z := 0, w := 0 }
    last_update := 0
    interpolation_time := 1000 }

/-- A connected client (local player 1) tracking `interp_demo_entity`. -/
def interp_demo_manager : NetworkManager :=
  { initial_manager false with
    is_connected := true
    local_player_id := 1
    entities := [interp_demo_entity] }

/-- An unacknowledged reliable packet whose retry budget is exhausted. -/
def exhausted_packet : ReliablePacket :=
  { seq16 := 100
    ack := 0
    ack_bitfield := 0
    packet_type := 9
    data_length := 32
    send_time := 50
    acked := false
    retry_count := 10 }

/-- A registry with a single connected, authenticated peer 3. -/
def demo_players : List NetworkPlayer :=
  [{ player_id := 3, connected := true, authenticated := true, last_packet_time := 40 }]

/-! ## Theorems -/

/-- Bounded accumulator invariant of the snapshot fill loop: starting from
an entity array within the cap, the loop never grows it past the cap. -/
theorem snapshot_fill_length_le (now : Nat) (rest : List NetworkEntity) :
    ∀ acc : List NetworkEntity, acc.length ≤ MAX_ENTITIES_PER_PACKET →
      (snapshot_fill now acc rest).length ≤ MAX_ENTITIES_PER_PACKET := by
  induction rest with
  | nil => intro acc h; simpa [snapshot_fill] using h
  | cons e rest ih =>
    intro acc h
    unfold snapshot_fill
    split
    · exact h
    · split
      · refine ih (acc ++ [e]) ?_
        have hlt : acc.length < MAX_ENTITIES_PER_PACKET := by omega
        simp only [List.length_append, List.length_cons, List.length_nil]
        omega
      · exact ih acc h

/-- C6: the snapshot built by `network_send_snapshot` contains at most
`MAX_ENTITIES_PER_PACKET` (64) entities, for every entity table and every
current time — even when more entities changed within the 2-second recency
window than fit. -/
theorem snapshot_entity_count_capped (now : Nat) (entities : List NetworkEntity) :
    (snapshot_entity_list now entities).length ≤ MAX_ENTITIES_PER_PACKET :=
  snapshot_fill_length_le now entities [] (by simp [MAX_ENTITIES_PER_PACKET])

/-- C5: starting from the freshly created manager (last received sequence
0), processing well-formed packets with sequence numbers 1, 2, 4, 5 in
that order leaves the loss statistic at exactly one lost packet. -/
theorem one_lost_packet_after_1_2_4_5 :
    (process_packets (initial_manager false)
      [mk_packet 1 2 1, mk_packet 1 2 2, mk_packet 1 2 4, mk_packet 1 2 5]).packets_lost
      = 1 := by
  rfl

/-- C3 (evaluation at the failing input): with last received sequence 10,
a well-formed ENTITY_UPDATE packet with the older sequence number 4 is
not dropped: it is dispatched to the entity-update handler, 65529 lost
packets are recorded (the unsigned 16-bit difference 4 - 11), and the
last-received counter is moved back to 4. -/
theorem regression_packet_is_processed :
    (network_process_packet regression_demo_manager (mk_packet 1 2 4)).2 = some 2 ∧
    (network_process_packet regression_demo_manager (mk_packet 1 2 4)).1.packets_lost
      = 65529 ∧
    (network_process_packet regression_demo_manager (mk_packet 1 2 4)).1.last_received_sequence
      = 4 :=
  ⟨rfl, rfl, rfl⟩

/-- C2 (counterexample): the receive path does not compare sequence
numbers with signed 16-bit arithmetic, and the comparison is not correct
for every pair.  With last received sequence 5 the expected next sequence
is 6; an incoming packet with sequence 3 has signed 16-bit distance -3
(older than expected, a regression under the claim's arithmetic), yet the
code classifies it as a forward gap: it adds 65533 (the unsigned 16-bit
difference 3 - 6) to `packets_lost`, rewinds the last-received counter to
3, and still dispatches the packet. -/
theorem seq_comparison_not_signed_counterexample :
    spec_signed_delta 3 ((wrap_demo_manager.last_received_sequence + 1) % 65536) = -3 ∧
    (network_process_packet wrap_demo_manager (mk_packet 1 2 3)).1.packets_lost
      = wrap_demo_manager.packets_lost + 65533 ∧
    (network_process_packet wrap_demo_manager (mk_packet 1 2 3)).1.last_received_sequence
      = 3 ∧
    (network_process_packet wrap_demo_manager (mk_packet 1 2 3)).2 = some 2 :=
  ⟨rfl, rfl, rfl, rfl⟩

/-- C2 (amended): sequence distance is computed with unsigned 16-bit
wrap-around subtraction, not signed arithmetic.  For the claim's concrete
pair this still behaves as a forward gap: when the last received sequence
is 65530 and a packet with sequence 5 arrives, the packet is accepted as
coming after 65530 — the counter advances to 5 and the unsigned distance
from the expected sequence 65531 records 10 lost packets — but packets
older than expected are classified the same way, so the comparison is not
correct for every pair. -/
theorem wraparound_forward_gap (st : NetworkManager)
    (h : st.last_received_sequence = 65530) :
    (network_process_packet st (mk_packet 1 2 5)).1.last_received_sequence = 5 ∧
    (network_process_packet st (mk_packet 1 2 5)).1.packets_lost
      = st.packets_lost + 10 ∧
    (network_process_packet st (mk_packet 1 2 5)).2 = some 2 := by
  refine ⟨?_, ?_, ?_⟩ <;>
    simp [network_process_packet, byteAt, mk_packet, sub16, h,
      METAVERSE_PROTOCOL_VERSION, handled_packet_types]

/-- Witness for `wraparound_forward_gap` at the concrete pre-wrap
manager. -/
theorem wraparound_forward_gap_witness :
    (network_process_packet prewrap_demo_manager (mk_packet 1 2 5)).1.last_received_sequence
      = 5 ∧
    (network_process_packet prewrap_demo_manager (mk_packet 1 2 5)).1.packets_lost
      = prewrap_demo_manager.packets_lost + 10 ∧
    (network_process_packet prewrap_demo_manager (mk_packet 1 2 5)).2 = some 2 :=
  wraparound_forward_gap prewrap_demo_manager rfl

/-- C8: a received datagram whose protocol-version byte differs from
`METAVERSE_PROTOCOL_VERSION` is dropped before the dispatch `switch` (no
handler runs), and the only state change of the receive step is the
increment of the diagnostic counters `packets_received` and
`bytes_received` performed by the receive thread — the sequence counters,
the player records, the entity table and the loss statistics are all left
unchanged. -/
theorem version_mismatch_dropped (st : NetworkManager) (data : List Nat)
    (h4 : 4 ≤ data.length) (hv : byteAt data 0 ≠ METAVERSE_PROTOCOL_VERSION) :
    (network_receive_step st data).2 = none ∧
    (network_receive_step st data).1 =
      { st with
        packets_received := st.packets_received + 1
        bytes_received := st.bytes_received + data.length } := by
  unfold network_receive_step network_process_packet
  rw [if_neg (by omega), if_pos hv]
  exact ⟨rfl, rfl⟩

/-- Witness for `version_mismatch_dropped`: a 4-byte datagram with
protocol version 2 arriving at a fresh server manager. -/
theorem version_mismatch_dropped_witness :
    (network_receive_step (initial_manager true) [2, 8, 0, 0]).2 = none ∧
    (network_receive_step (initial_manager true) [2, 8, 0, 0]).1 =
      { initial_manager true with
        packets_received := (initial_manager true).packets_received + 1
        bytes_received := (initial_manager true).bytes_received
          + ([2, 8, 0, 0] : List Nat).length } :=
  version_mismatch_dropped (initial_manager true) [2, 8, 0, 0]
    (by decide) (by decide)

/-- C4 (counterexample): the interpolation step does not compute the
rendered position as `p0 + (p1 - p0) * clamp((t - t0)/(t1 - t0), 0, 1)`.
For the non-owned, non-stale entity `interp_demo_entity` (latest received
position `(1,0,0)` at time 0, interpolation window 1000) evaluated at time
500, the spec's blend of prior state `(0,0,0)` at `t0 = 0` and latest
state `(1,0,0)` at `t1 = 1000` is `(1/2,0,0)`, while the code leaves the
entity's position at `(1,0,0)` — no blend between two received states is
performed (only a single latest state is even stored). -/
theorem interpolation_formula_counterexample :
    (network_interpolate_entities interp_demo_manager 500).entities.map
        NetworkEntity.position
      = [{ x := 1, y := 0, z := 0, w := 0 }] ∧
    interp_spec_position { x := 0, y := 0, z := 0, w := 0 } 0
        { x := 1, y := 0, z := 0, w := 0 } 1000 500
      = { x := 1/2, y := 0, z := 0, w := 0 } ∧
    ({ x := 1, y := 0, z := 0, w := 0 } : Vector4)
      ≠ { x := 1/2, y := 0, z := 0, w := 0 } := by
  refine ⟨rfl, ?_, by norm_num [Vector4.mk.injEq]⟩
  norm_num [interp_spec_position, Vector4.mk.injEq, max_eq_left, min_eq_left]

/-- C4 (amended): for every manager state and time, the client
interpolation step `network_interpolate_entities` leaves the manager —
in particular every entity's position — unchanged: for fresh non-owned
entities it computes only the clamped blend factor
(`interpolation_alpha`) and never writes a pose back. -/
theorem interpolate_entities_is_identity (st : NetworkManager) (now : Nat) :
    network_interpolate_entities st now = st := by
  unfold network_interpolate_entities
  split
  · rfl
  · have hbody : ∀ e, interpolate_entity st.local_player_id now e = e := by
      intro e
      unfold interpolate_entity
      split
      · rfl
      · split
        · rfl
        · split <;> rfl
    have hmap : st.entities.map (interpolate_entity st.local_player_id now)
        = st.entities := by
      induction st.entities with
      | nil => rfl
      | cons a l ih => simp [hbody a, ih]
    rw [hmap]

/-- C1: for an entity owned by the local peer whose pose diverges from the
authoritative state found by `find_server_entity` by more than the
reconciliation epsilon (positional distance above 0.1 or rotational
distance above 0.01), the per-entity reconciliation step of
`network_reconcile_state` emits exactly one correction event, and
immediately afterwards the entity's position and rotation equal the
authoritative ones. -/
theorem reconcile_diverged_corrects (local_player_id : Nat)
    (table : List NetworkEntity) (e s : NetworkEntity)
    (hown : e.owner_id = local_player_id)
    (hfind : find_server_entity table e.entity_id = some s)
    (hdiv : pose_diverged e s) :
    (reconcile_entity local_player_id table e).2 = 1 ∧
    (reconcile_entity local_player_id table e).1.position = s.position ∧
    (reconcile_entity local_player_id table e).1.rotation = s.rotation := by
  have hstep : reconcile_entity local_player_id table e
      = ({ e with position := s.position, rotation := s.rotation }, 1) := by
    simp only [reconcile_entity, hfind]
    rw [if_neg (not_not_intro hown), if_pos hdiv]
  rw [hstep]
  exact ⟨rfl, rfl, rfl⟩

/-- Witness for `reconcile_diverged_corrects`: predicted entity 7, owned
by local player 42 at position `(1,0,0)`, against the authoritative copy
at the origin found first in the table. -/
theorem reconcile_diverged_corrects_witness :
    (reconcile_entity 42 [auth_entity, predicted_entity] predicted_entity).2 = 1 ∧
    (reconcile_entity 42 [auth_entity, predicted_entity] predicted_entity).1.position
      = auth_entity.position ∧
    (reconcile_entity 42 [auth_entity, predicted_entity] predicted_entity).1.rotation
      = auth_entity.rotation :=
  reconcile_diverged_corrects 42 [auth_entity, predicted_entity]
    predicted_entity auth_entity rfl rfl
    (by norm_num [pose_diverged, vector_distance_sq, RECONCILE_EPS_POS_SQ,
      RECONCILE_EPS_ROT_SQ, predicted_entity, auth_entity])

/-- C9: for an entity owned by the local peer whose pose is within the
reconciliation epsilon of the authoritative state found by
`find_server_entity`, the per-entity reconciliation step of
`network_reconcile_state` emits no correction event and returns the
entity unchanged (prediction is idempotent under agreement). -/
theorem reconcile_within_eps_no_correction (local_player_id : Nat)
    (table : List NetworkEntity) (e s : NetworkEntity)
    (hown : e.owner_id = local_player_id)
    (hfind : find_server_entity table e.entity_id = some s)
    (hconv : ¬ pose_diverged e s) :
    reconcile_entity local_player_id table e = (e, 0) := by
  simp only [reconcile_entity, hfind]
  rw [if_neg (not_not_intro hown), if_neg hconv]

/-- Witness for `reconcile_within_eps_no_correction`: owned entity 9
agrees exactly with the authoritative state the table lookup returns
(its own entry). -/
theorem reconcile_within_eps_no_correction_witness :
    reconcile_entity 42 [agreeing_entity] agreeing_entity = (agreeing_entity, 0) :=
  reconcile_within_eps_no_correction 42 [agreeing_entity]
    agreeing_entity agreeing_entity rfl rfl
    (by norm_num [pose_diverged, vector_distance_sq, RECONCILE_EPS_POS_SQ,
      RECONCILE_EPS_ROT_SQ, agreeing_entity, auth_entity])

/-- C7: a reliable packet that is still unacknowledged once its retry
count has reached the configured maximum is not retransmitted again (the
record is returned unchanged) and surfaces the peer-unreachable
condition; the Session Registry reacts to it like a keepalive timeout by
marking the unreachable peer disconnected. -/
theorem reliable_retry_budget_exhausted (now : Nat) (p : ReliablePacket)
    (players : List NetworkPlayer) (pid : Nat)
    (hacked : p.acked = false)
    (hmax : MAX_RELIABLE_RETRIES ≤ p.retry_count) :
    reliable_retry_step now p = (p, RetryAction.peer_unreachable) ∧
    ∀ q ∈ registry_on_unreachable players pid,
      q.player_id = pid → q.connected = false := by
  constructor
  · simp [reliable_retry_step, hacked, ge_iff_le, hmax]
  · intro q hq hqid
    simp only [registry_on_unreachable, List.mem_map] at hq
    obtain ⟨pl, _, hfq⟩ := hq
    by_cases hc : pl.player_id = pid
    · rw [← hfq]
      simp [hc]
    · rw [← hfq] at hqid
      rw [if_neg hc] at hqid
      exact absurd hqid hc

/-- Witness for `reliable_retry_budget_exhausted`: a packet at the retry
maximum of 10 with peer 3 connected; the retry step reports unreachable
without retransmitting, and the registry marks peer 3 disconnected. -/
theorem reliable_retry_budget_exhausted_witness :
    reliable_retry_step 60 exhausted_packet
      = (exhausted_packet, RetryAction.peer_unreachable) ∧
    registry_on_unreachable demo_players 3
      = [{ player_id := 3, connected := false, authenticated := true,
           last_packet_time := 40 }] :=
  ⟨(reliable_retry_budget_exhausted 60 exhausted_packet demo_players 3
      rfl (by decide)).1, rfl⟩

/-- C10: under the caller precondition `data_size ≤ 1200` (the capacity
of `VoicePacket.audio_data`), the copy of the audio payload into the
voice record stays in bounds, and the serialized voice packet built by
`network_send_voice` — 4 header bytes plus
`sizeof(VoicePacket) - sizeof(audio_data) + data_size` body bytes — fits
within `MAX_PACKET_SIZE`, so the out-of-bounds case is unreachable. -/
theorem voice_payload_within_bounds (data_size : Nat)
    (h : data_size ≤ VOICE_AUDIO_CAPACITY) :
    data_size ≤ VOICE_AUDIO_CAPACITY ∧
    voice_serialized_size data_size ≤ MAX_PACKET_SIZE := by
  refine ⟨h, ?_⟩
  unfold voice_serialized_size voice_body_size sizeof_VoicePacket MAX_PACKET_SIZE
  unfold VOICE_AUDIO_CAPACITY at h ⊢
  omega

/-- Witness for `voice_payload_within_bounds` at the full buffer size. -/
theorem voice_payload_within_bounds_witness :
    1200 ≤ VOICE_AUDIO_CAPACITY ∧
    voice_serialized_size 1200 ≤ MAX_PACKET_SIZE :=
  voice_payload_within_bounds 1200 (by decide)

end Metaverse
